import Mathlib

/-!
A shallow embedding of `src/slackeventsapi/server.py` (the `SlackServer`
Flask adapter): request verification (timestamp replay window, HMAC-SHA256
signature check) and payload dispatch for the events, interactive and
options endpoints, together with theorems checking the specification's
claims about that pipeline.

External library functions (Python's `hmac`/`hashlib` HMAC-SHA256 hex
digest and `json.loads`) are modelled as explicit function parameters of
the embedded code; the repository's own logic is translated directly.
The embedding follows the live Python-3 code path (`hmac.compare_digest`
exists, `sys.version_info[0] != 2`).
-/

/-- JSON values, the result of Python `json.loads`.  Objects keep their
fields as an association list. -/
inductive Json where
  | null
  | bool (b : Bool)
  | num (n : Int)
  | str (s : String)
  | arr (elems : List Json)
  | obj (fields : List (String × Json))

/-- Lookup of a key in a JSON object's field list (Python dict lookup,
first binding wins). -/
def lookupField : List (String × Json) → String → Option Json
  | [], _ => none
  | (k, v) :: rest, key => if k = key then some v else lookupField rest key

/-- `j.get? key`: the value bound to `key` when `j` is an object holding
that key.  Models Python dict key access / the `key in d` membership test
on the JSON-object bodies the handlers receive. -/
def Json.get? : Json → String → Option Json
  | .obj fields, key => lookupField fields key
  | _, _ => none

/-- Python exceptions the pipeline can raise. -/
inductive PyExn where
  | typeError
  | valueError
  | keyError (key : String)
deriving DecidableEq

/-- Python `j[key]` subscription with a string key: the bound value on a
dict that has the key, `KeyError` on a dict without it, `TypeError` on
any non-dict value. -/
def pyGetItem (j : Json) (key : String) : Except PyExn Json :=
  match j with
  | .obj fields =>
    match lookupField fields key with
    | some v => .ok v
    | none => .error (.keyError key)
  | _ => .error .typeError

/-- An inbound HTTP request as Flask presents it to the handlers:
method, header map, raw body (`request.get_data()` / `request.data`,
as a string of bytes) and the decoded form fields (`request.form`). -/
structure Request where
  method : String
  headers : List (String × String)
  rawBody : String
  form : List (String × String)

/-- Lookup in a string-valued association list (headers, form fields). -/
def lookupStr : List (String × String) → String → Option String
  | [], _ => none
  | (k, v) :: rest, key => if k = key then some v else lookupStr rest key

/-- `request.headers.get(name)`: `None` when the header is absent. -/
def getHeader (req : Request) (name : String) : Option String :=
  lookupStr req.headers name

/-- `request.form[name]` presence/lookup. -/
def getForm (req : Request) (name : String) : Option String :=
  lookupStr req.form name

/-- An HTTP response as `make_response` builds it: status code, body
(a JSON value; plain-string bodies are `Json.str`) and response headers. -/
structure HttpResponse where
  status : Nat
  body : Json
  headers : List (String × String)

/-- An all-ASCII string (every character below code point 128).
CPython's `hmac.compare_digest` accepts `str` arguments only when both
are ASCII. -/
def isAsciiString (s : String) : Bool :=
  s.data.all (fun c => c.toNat < 128)

/-- CPython's `hmac.compare_digest(a, b)` on two `str` arguments: equality
when both strings are ASCII, and `TypeError` ("comparing strings with
non-ASCII characters is not supported") when either is not. -/
def compare_digest (a b : String) : Except PyExn Bool :=
  if isAsciiString a && isAsciiString b then .ok (a == b)
  else .error .typeError

/-- `verify_signature(timestamp, signature)` from `SlackServer`, on the
Python-3 path: build `'v0:' + str(timestamp) + ':' + rawBody`, prepend
`'v0='` to the library HMAC-SHA256 hex digest keyed by the signing
secret, and `hmac.compare_digest` against the incoming signature header.
`compare_digest` called with `None` (missing header) raises `TypeError`,
as does a non-ASCII header value; on two ASCII strings it is equality.
`hmacSha256Hex` stands for the external `hmac`/`hashlib` library:
`hmacSha256Hex key msg` is the hex digest of HMAC-SHA256 of `msg` under
`key` (always ASCII in reality, which theorems carry as a hypothesis). -/
def verify_signature (hmacSha256Hex : String → String → String)
    (signingSecret timestamp rawBody : String) (signature : Option String) :
    Except PyExn Bool :=
  let req := "v0:" ++ timestamp ++ ":" ++ rawBody
  let request_hash := "v0=" ++ hmacSha256Hex signingSecret req
  match signature with
  | none => .error .typeError
  | some sig => compare_digest request_hash sig

/-- Python whitespace (the characters `str.isspace` recognises and
`int(str)` strips): U+0009–U+000D, U+001C–U+001F, space, U+0085, U+00A0,
U+1680, U+2000–U+200A, U+2028, U+2029, U+202F, U+205F, U+3000. -/
def isPySpace (c : Char) : Bool :=
  let n := c.toNat
  (9 ≤ n && n ≤ 13) || (28 ≤ n && n ≤ 31) || n == 32 || n == 133 ||
  n == 160 || n == 5760 || (8192 ≤ n && n ≤ 8202) || n == 8232 ||
  n == 8233 || n == 8239 || n == 8287 || n == 12288

/-- Whitespace strip on both ends, as Python `int(str)` performs before
parsing. -/
def stripPySpace (cs : List Char) : List Char :=
  ((cs.dropWhile isPySpace).reverse.dropWhile isPySpace).reverse

/-- Digit tail with PEP 515 underscore grouping: each underscore must sit
between two digits. -/
def pyIntDigitsGo : List Char → Nat → Option Nat
  | [], acc => some acc
  | ['_'], _ => none
  | '_' :: c :: rest, acc =>
    if c.isDigit then pyIntDigitsGo rest (acc * 10 + (c.toNat - 48))
    else none
  | c :: rest, acc =>
    if c.isDigit then pyIntDigitsGo rest (acc * 10 + (c.toNat - 48))
    else none

/-- A nonempty underscore-grouped digit string's value: a digit first,
then `pyIntDigitsGo`. -/
def pyIntDigits : List Char → Option Nat
  | [] => none
  | c :: rest =>
    if c.isDigit then pyIntDigitsGo rest (c.toNat - 48) else none

/-- Python `int(s)` on a string: strip Python whitespace, optional single
sign, then underscore-grouped decimal digits; `none` models the
`ValueError` raised on anything else.  Faithful on ASCII-range digit
content (non-ASCII Unicode decimal digits, which Python also accepts,
are outside the domain the theorems quantify over). -/
def pyIntOfString (s : String) : Option Int :=
  match stripPySpace s.data with
  | '-' :: rest => (pyIntDigits rest).map (fun n => -(n : Int))
  | '+' :: rest => (pyIntDigits rest).map (fun n => (n : Int))
  | cs => (pyIntDigits cs).map (fun n => (n : Int))

/-- The second argument of an `emitter.emit` call: either a
`SlackEventAdapterException` carrying its message, or a parsed JSON
payload. -/
inductive EmitValue where
  | adapterError (msg : String)
  | jsonValue (j : Json)

/-- One `self.emitter.emit(key, value)` call.  Listeners registered under
a discriminator receive exactly the emissions whose key is that
discriminator's string. -/
structure Emission where
  key : Json
  value : EmitValue

/-- `emit('error', SlackEventAdapterException(msg))`. -/
def errorEmission (msg : String) : Emission :=
  ⟨.str "error", .adapterError msg⟩

/-- `make_response("These are not the slackbots you're looking for.", 404)`. -/
def notFoundResp : HttpResponse :=
  ⟨404, .str "These are not the slackbots you're looking for.", []⟩

/-- `make_response("", 403)`. -/
def forbiddenResp : HttpResponse :=
  ⟨403, .str "", []⟩

/-- Result of `base_checks()`: an early response (with the emissions made
on the way), a pass (`return True`), or an uncaught Python exception. -/
inductive BCResult where
  | response (r : HttpResponse) (emits : List Emission)
  | passed
  | raised (e : PyExn)

/-- The signature step of `base_checks`: read `X-Slack-Signature`, call
`verify_signature`; on a failed check emit the error and answer 403. -/
def signature_phase (hmacSha256Hex : String → String → String)
    (signingSecret timestamp : String) (signature : Option String)
    (rawBody : String) : BCResult :=
  match verify_signature hmacSha256Hex signingSecret timestamp rawBody
      signature with
  | .error e => .raised e
  | .ok true => .passed
  | .ok false =>
    .response forbiddenResp [errorEmission "Invalid request signature"]

/-- `base_checks()` from `bind_route`: 404 on GET; read
`X-Slack-Request-Timestamp` and run `int()` on it (raising `TypeError`
on a missing header and `ValueError` on a non-numeric one); 403 with an
error emission when `abs(time() - int(ts)) > 60 * 5`; otherwise the
signature step.  `now` is the integral part of `time()`. -/
def base_checks (hmacSha256Hex : String → String → String)
    (signingSecret : String) (now : Int) (req : Request) : BCResult :=
  if req.method = "GET" then
    .response notFoundResp []
  else
    match getHeader req "X-Slack-Request-Timestamp" with
    | none => .raised .typeError
    | some ts =>
      match pyIntOfString ts with
      | none => .raised .valueError
      | some t =>
        if 60 * 5 < (now - t).natAbs then
          .response forbiddenResp [errorEmission "Invalid request timestamp"]
        else
          signature_phase hmacSha256Hex signingSecret ts
            (getHeader req "X-Slack-Signature") req.rawBody

/-- What a route handler produces: a response, an uncaught Python
exception, or Python's implicit `None` fallthrough. -/
inductive Outcome where
  | resp (r : HttpResponse)
  | exn (e : PyExn)
  | noResponse

/-- The `event()` route handler: run `base_checks`; `json.loads` the raw
body (`loads` stands for the external `json` library); echo a
`challenge` field verbatim with 200; otherwise on an `event` field emit
the whole envelope under `event_data["event"]["type"]` and answer 200
empty with the `X-Slack-Powered-By` header; with neither field the
Python function falls through returning `None`.  The second component
collects every `emitter.emit` call made. -/
def eventHandler (hmacSha256Hex : String → String → String)
    (loads : String → Except PyExn Json)
    (signingSecret packageInfo : String) (now : Int) (req : Request) :
    Outcome × List Emission :=
  match base_checks hmacSha256Hex signingSecret now req with
  | .response r es => (.resp r, es)
  | .raised e => (.exn e, [])
  | .passed =>
    match loads req.rawBody with
    | .error e => (.exn e, [])
    | .ok event_data =>
      match event_data.get? "challenge" with
      | some c =>
        (.resp ⟨200, c, [("content_type", "application/json")]⟩, [])
      | none =>
        match event_data.get? "event" with
        | none => (.noResponse, [])
        | some ev =>
          match pyGetItem ev "type" with
          | .error e => (.exn e, [])
          | .ok event_type =>
            (.resp ⟨200, .str "", [("X-Slack-Powered-By", packageInfo)]⟩,
              [⟨event_type, .jsonValue event_data⟩])

/-- The `interactive()` route handler: run `base_checks`; when the form
has a `payload` field, `json.loads` it, emit the parsed payload under
`payload["type"]` and answer 200 empty with the `X-Slack-Powered-By`
header; without the field answer 200 empty with no header. -/
def interactiveHandler (hmacSha256Hex : String → String → String)
    (loads : String → Except PyExn Json)
    (signingSecret packageInfo : String) (now : Int) (req : Request) :
    Outcome × List Emission :=
  match base_checks hmacSha256Hex signingSecret now req with
  | .response r es => (.resp r, es)
  | .raised e => (.exn e, [])
  | .passed =>
    match getForm req "payload" with
    | none => (.resp ⟨200, .str "", []⟩, [])
    | some payloadStr =>
      match loads payloadStr with
      | .error e => (.exn e, [])
      | .ok payload =>
        match pyGetItem payload "type" with
        | .error e => (.exn e, [])
        | .ok payload_type =>
          (.resp ⟨200, .str "", [("X-Slack-Powered-By", packageInfo)]⟩,
            [⟨payload_type, .jsonValue payload⟩])

/-- The hardcoded option list `r` the `options()` handler returns. -/
def optionsStaticList : Json :=
  .arr [
    .obj [("text", .obj [("type", .str "plain_text"),
                         ("text", .str "1:Many Internal")]),
          ("value", .str "1:Many Internal")],
    .obj [("text", .obj [("type", .str "plain_text"),
                         ("text", .str "1:many Argentina")]),
          ("value", .str "1:many Argentina")]]

/-- The `options()` route handler: like `interactive()`, but the 200
response carries the fixed option list `r` as JSON body. -/
def optionsHandler (hmacSha256Hex : String → String → String)
    (loads : String → Except PyExn Json)
    (signingSecret packageInfo : String) (now : Int) (req : Request) :
    Outcome × List Emission :=
  match base_checks hmacSha256Hex signingSecret now req with
  | .response r es => (.resp r, es)
  | .raised e => (.exn e, [])
  | .passed =>
    match getForm req "payload" with
    | none => (.resp ⟨200, .str "", []⟩, [])
    | some payloadStr =>
      match loads payloadStr with
      | .error e => (.exn e, [])
      | .ok payload =>
        match pyGetItem payload "type" with
        | .error e => (.exn e, [])
        | .ok payload_type =>
          (.resp ⟨200, optionsStaticList,
              [("content_type", "application/json"),
               ("X-Slack-Powered-By", packageInfo)]⟩,
            [⟨payload_type, .jsonValue payload⟩])

/-- The `server` constructor argument: Python `None`, a Flask instance
(tagged with an identity), or any other Python value together with its
truthiness. -/
inductive ServerArg where
  | pyNone
  | flaskApp (appId : Nat)
  | otherValue (truthy : Bool)
deriving DecidableEq

/-- Python truthiness of the `server` argument (`if server:`); Flask
instances are truthy, `None` is falsy. -/
def pyTruthy : ServerArg → Bool
  | .pyNone => false
  | .flaskApp _ => true
  | .otherValue b => b

/-- `isinstance(server, Flask)`. -/
def isFlaskArg : ServerArg → Bool
  | .flaskApp _ => true
  | _ => false

/-- Which application object the routes were bound onto. -/
inductive BoundApp where
  | existing (appId : Nat)
  | newlyCreated
deriving DecidableEq

/-- The `server` branch of `SlackServer.__init__`: a truthy argument is
checked with `isinstance(server, Flask)` — binding the routes onto it
when it is one and raising `TypeError` (binding nothing) when it is
not — while a falsy argument (`None` included) makes the adapter call
`Flask.__init__` on itself and bind the routes onto that new app. -/
def slackServerInit (server : ServerArg) : Except PyExn BoundApp :=
  if pyTruthy server then
    match server with
    | .flaskApp i => .ok (.existing i)
    | _ => .error .typeError
  else
    .ok .newlyCreated

/-- The option-object shape the spec ascribes to each element of the
options response: `{text: {type: "plain_text", text: string}, value:
string}`. -/
def isOptionShape (j : Json) : Bool :=
  (match j.get? "text" with
   | some t =>
     (match t.get? "type" with
      | some (.str s) => s == "plain_text"
      | _ => false) &&
     (match t.get? "text" with
      | some (.str _) => true
      | _ => false)
   | none => false) &&
  (match j.get? "value" with
   | some (.str _) => true
   | _ => false)

/-- ASCII-ness distributes over string append. -/
lemma isAsciiString_append (a b : String) :
    isAsciiString (a ++ b) = (isAsciiString a && isAsciiString b) := by
  obtain ⟨la⟩ := a
  obtain ⟨lb⟩ := b
  simp [isAsciiString, String.data, List.all_append]

/-- Counterexample to C1: a signature header that differs from the
expected value but contains a non-ASCII character (here `é`, any header
byte ≥ 0x80 after Flask's latin-1 decoding) makes `verify_signature`
raise `TypeError` from `hmac.compare_digest` instead of returning
false. -/
theorem c1_counterexample :
    ("v0=abcé" : String) ≠ "v0=abcd" ∧
    verify_signature (fun _ _ => "abcd") "sec" "1600000000" "\x7b\x7d"
        (some "v0=abcé") = .error .typeError ∧
    verify_signature (fun _ _ => "abcd") "sec" "1600000000" "\x7b\x7d"
        (some "v0=abcé") ≠ .ok false := by
  refine ⟨by decide, rfl, fun h => ?_⟩
  rw [show verify_signature (fun _ _ => "abcd") "sec" "1600000000" "\x7b\x7d"
      (some "v0=abcé") = Except.error PyExn.typeError from rfl] at h
  exact Except.noConfusion h

/-- C1 amended: with the library digest ASCII (as a real hex digest is),
`verify_signature` accepts exactly the header `"v0=" ++
hex(HMAC-SHA256(secret, "v0:" ++ timestamp ++ ":" ++ body))`, rejects
every ASCII header that differs from it, and raises `TypeError` on any
non-ASCII header. -/
theorem c1_verify_signature_amended
    (hmacSha256Hex : String → String → String)
    (secret timestamp body : String) (sig : String)
    (expected : String)
    (hdigest : isAsciiString
      (hmacSha256Hex secret ("v0:" ++ timestamp ++ ":" ++ body)) = true)
    (hexp : expected =
      "v0=" ++ hmacSha256Hex secret ("v0:" ++ timestamp ++ ":" ++ body)) :
    (sig = expected →
      verify_signature hmacSha256Hex secret timestamp body (some sig) =
        .ok true) ∧
    (sig ≠ expected → isAsciiString sig = true →
      verify_signature hmacSha256Hex secret timestamp body (some sig) =
        .ok false) ∧
    (isAsciiString sig = false →
      verify_signature hmacSha256Hex secret timestamp body (some sig) =
        .error .typeError) := by
  subst hexp
  have hra : isAsciiString
      ("v0=" ++ hmacSha256Hex secret ("v0:" ++ timestamp ++ ":" ++ body)) =
      true := by
    rw [isAsciiString_append, hdigest]
    decide
  refine ⟨?_, ?_, ?_⟩
  · intro h
    subst h
    simp [verify_signature, compare_digest, hra]
  · intro hn hsig
    have hb : (("v0=" ++ hmacSha256Hex secret
        ("v0:" ++ timestamp ++ ":" ++ body)) == sig) = false :=
      beq_eq_false_iff_ne.mpr (fun hEq => hn hEq.symm)
    simp [verify_signature, compare_digest, hra, hsig, hb]
  · intro hsig
    simp [verify_signature, compare_digest, hsig]

/-- Witness for the amended C1 at a concrete hash function: the expected
header is accepted, an ASCII one-byte variation is rejected, and a
non-ASCII variation raises `TypeError`. -/
theorem c1_verify_signature_amended_witness :
    (verify_signature (fun _ _ => "abcd") "sec" "1600000000" "\x7b\x7d"
        (some "v0=abcd") = .ok true) ∧
    (verify_signature (fun _ _ => "abcd") "sec" "1600000000" "\x7b\x7d"
        (some "v0=abce") = .ok false) ∧
    (verify_signature (fun _ _ => "abcd") "sec" "1600000000" "\x7b\x7d"
        (some "v0=é") = .error .typeError) := by
  refine ⟨(c1_verify_signature_amended (fun _ _ => "abcd") "sec" "1600000000"
      "\x7b\x7d" "v0=abcd" _ rfl rfl).1 rfl, ?_, ?_⟩
  · exact (c1_verify_signature_amended (fun _ _ => "abcd") "sec" "1600000000"
      "\x7b\x7d" "v0=abce" _ rfl rfl).2.1 (by decide) rfl
  · exact (c1_verify_signature_amended (fun _ _ => "abcd") "sec" "1600000000"
      "\x7b\x7d" "v0=é" _ rfl rfl).2.2 rfl

/-- C5: a POST to the events endpoint that passes both checks and whose
JSON body holds a `challenge` field is answered 200 with that field's
value verbatim as the body, and nothing is emitted to any listener. -/
theorem c5_challenge_echo_no_dispatch (hh : String → String → String)
    (loads : String → Except PyExn Json) (secret pkg : String) (now : Int)
    (req : Request) (event_data c : Json)
    (hbc : base_checks hh secret now req = .passed)
    (hload : loads req.rawBody = .ok event_data)
    (hch : event_data.get? "challenge" = some c) :
    eventHandler hh loads secret pkg now req =
      (.resp ⟨200, c, [("content_type", "application/json")]⟩, []) := by
  simp only [eventHandler, hbc, hload, hch]

/-- Witness for C5: a valid signed POST whose body parses to
`{"challenge": "abc123"}` is answered 200 with body `abc123` and an
empty emission list. -/
theorem c5_challenge_echo_no_dispatch_witness :
    eventHandler (fun _ _ => "h")
        (fun _ => .ok (Json.obj [("challenge", Json.str "abc123")]))
        "sec" "pkg" 100
        ⟨"POST", [("X-Slack-Request-Timestamp", "100"),
                  ("X-Slack-Signature", "v0=h")], "\x7b\x7d", []⟩ =
      (.resp ⟨200, Json.str "abc123",
        [("content_type", "application/json")]⟩, []) :=
  c5_challenge_echo_no_dispatch (fun _ _ => "h")
    (fun _ => .ok (Json.obj [("challenge", Json.str "abc123")]))
    "sec" "pkg" 100
    ⟨"POST", [("X-Slack-Request-Timestamp", "100"),
              ("X-Slack-Signature", "v0=h")], "\x7b\x7d", []⟩
    (Json.obj [("challenge", Json.str "abc123")]) (Json.str "abc123")
    rfl rfl rfl

/-- C6: a POST to the events endpoint that passes both checks, has no
`challenge` field, and holds an `event` object with a `type`, dispatches
the entire outer envelope under exactly that type and is answered 200
with an empty body and the `X-Slack-Powered-By` package header. -/
theorem c6_event_envelope_dispatch (hh : String → String → String)
    (loads : String → Except PyExn Json) (secret pkg : String) (now : Int)
    (req : Request) (event_data ev ty : Json)
    (hbc : base_checks hh secret now req = .passed)
    (hload : loads req.rawBody = .ok event_data)
    (hch : event_data.get? "challenge" = none)
    (hev : event_data.get? "event" = some ev)
    (hty : pyGetItem ev "type" = .ok ty) :
    eventHandler hh loads secret pkg now req =
      (.resp ⟨200, .str "", [("X-Slack-Powered-By", pkg)]⟩,
        [⟨ty, .jsonValue event_data⟩]) ∧
    ∀ em : Emission, em ∈ (eventHandler hh loads secret pkg now req).2 →
      em.key = ty ∧ em.value = .jsonValue event_data := by
  have h : eventHandler hh loads secret pkg now req =
      (.resp ⟨200, .str "", [("X-Slack-Powered-By", pkg)]⟩,
        [⟨ty, .jsonValue event_data⟩]) := by
    simp only [eventHandler, hbc, hload, hch, hev, hty]
  refine ⟨h, ?_⟩
  intro em hmem
  rw [h] at hmem
  rw [List.mem_singleton] at hmem
  subst hmem
  exact ⟨rfl, rfl⟩

/-- Witness for C6: a valid signed POST whose body parses to
`{"event": {"type": "message", "text": "hi"}}` emits the whole envelope
under `"message"` and is answered 200 empty with the package header. -/
theorem c6_event_envelope_dispatch_witness :
    eventHandler (fun _ _ => "h")
        (fun _ => .ok (Json.obj [("event",
          Json.obj [("type", Json.str "message"), ("text", Json.str "hi")])]))
        "sec" "pkg" 100
        ⟨"POST", [("X-Slack-Request-Timestamp", "100"),
                  ("X-Slack-Signature", "v0=h")], "\x7b\x7d", []⟩ =
      (.resp ⟨200, .str "", [("X-Slack-Powered-By", "pkg")]⟩,
        [⟨Json.str "message", .jsonValue (Json.obj [("event",
          Json.obj [("type", Json.str "message"),
                    ("text", Json.str "hi")])])⟩]) :=
  (c6_event_envelope_dispatch (fun _ _ => "h")
    (fun _ => .ok (Json.obj [("event",
      Json.obj [("type", Json.str "message"), ("text", Json.str "hi")])]))
    "sec" "pkg" 100
    ⟨"POST", [("X-Slack-Request-Timestamp", "100"),
              ("X-Slack-Signature", "v0=h")], "\x7b\x7d", []⟩
    (Json.obj [("event",
      Json.obj [("type", Json.str "message"), ("text", Json.str "hi")])])
    (Json.obj [("type", Json.str "message"), ("text", Json.str "hi")])
    (Json.str "message") rfl rfl rfl rfl rfl).1

/-- C7: a POST to the interactive endpoint that passes both checks and
carries a `payload` form field dispatches the parsed payload under its
`type` and is answered 200 empty with the package header; without the
form field it is answered 200 empty with no dispatch and no header. -/
theorem c7_interactive_payload_dispatch (hh : String → String → String)
    (loads : String → Except PyExn Json) (secret pkg : String) (now : Int)
    (req : Request)
    (hbc : base_checks hh secret now req = .passed) :
    (∀ ps payload ty, getForm req "payload" = some ps →
      loads ps = .ok payload → pyGetItem payload "type" = .ok ty →
      interactiveHandler hh loads secret pkg now req =
        (.resp ⟨200, .str "", [("X-Slack-Powered-By", pkg)]⟩,
          [⟨ty, .jsonValue payload⟩])) ∧
    (getForm req "payload" = none →
      interactiveHandler hh loads secret pkg now req =
        (.resp ⟨200, .str "", []⟩, [])) := by
  constructor
  · intro ps payload ty hps hload hty
    simp only [interactiveHandler, hbc, hps, hload, hty]
  · intro hps
    simp only [interactiveHandler, hbc, hps]

/-- Witness for C7: a valid signed POST with form field
`payload = {"type": "block_actions"}` dispatches under
`"block_actions"`, and one without the field is answered 200 empty. -/
theorem c7_interactive_payload_dispatch_witness :
    (interactiveHandler (fun _ _ => "h")
        (fun _ => .ok (Json.obj [("type", Json.str "block_actions")]))
        "sec" "pkg" 100
        ⟨"POST", [("X-Slack-Request-Timestamp", "100"),
                  ("X-Slack-Signature", "v0=h")], "",
          [("payload", "\x7b\x7d")]⟩ =
      (.resp ⟨200, .str "", [("X-Slack-Powered-By", "pkg")]⟩,
        [⟨Json.str "block_actions",
          .jsonValue (Json.obj [("type", Json.str "block_actions")])⟩])) ∧
    (interactiveHandler (fun _ _ => "h")
        (fun _ => .ok (Json.obj [("type", Json.str "block_actions")]))
        "sec" "pkg" 100
        ⟨"POST", [("X-Slack-Request-Timestamp", "100"),
                  ("X-Slack-Signature", "v0=h")], "", []⟩ =
      (.resp ⟨200, .str "", []⟩, [])) := by
  constructor
  · exact (c7_interactive_payload_dispatch (fun _ _ => "h")
      (fun _ => .ok (Json.obj [("type", Json.str "block_actions")]))
      "sec" "pkg" 100
      ⟨"POST", [("X-Slack-Request-Timestamp", "100"),
                ("X-Slack-Signature", "v0=h")], "",
        [("payload", "\x7b\x7d")]⟩ rfl).1 _ _ _ rfl rfl rfl
  · exact (c7_interactive_payload_dispatch (fun _ _ => "h")
      (fun _ => .ok (Json.obj [("type", Json.str "block_actions")]))
      "sec" "pkg" 100
      ⟨"POST", [("X-Slack-Request-Timestamp", "100"),
                ("X-Slack-Signature", "v0=h")], "", []⟩ rfl).2 rfl

/-- C8: a POST to the options endpoint that passes both checks and
carries a `payload` form field is answered 200 whose body is the fixed
non-empty option list — every element of the claimed
`{text: {type: "plain_text", text: string}, value: string}` shape — and
that response is the same whatever the dispatched payload was. -/
theorem c8_options_fixed_response (hh hh' : String → String → String)
    (loads loads' : String → Except PyExn Json)
    (secret secret' pkg : String) (now now' : Int) (req req' : Request)
    (ps ps' : String) (payload payload' ty ty' : Json)
    (hbc : base_checks hh secret now req = .passed)
    (hps : getForm req "payload" = some ps)
    (hload : loads ps = .ok payload)
    (hty : pyGetItem payload "type" = .ok ty)
    (hbc' : base_checks hh' secret' now' req' = .passed)
    (hps' : getForm req' "payload" = some ps')
    (hload' : loads' ps' = .ok payload')
    (hty' : pyGetItem payload' "type" = .ok ty') :
    optionsHandler hh loads secret pkg now req =
      (.resp ⟨200, optionsStaticList,
        [("content_type", "application/json"),
         ("X-Slack-Powered-By", pkg)]⟩, [⟨ty, .jsonValue payload⟩]) ∧
    (∃ elems, optionsStaticList = Json.arr elems ∧ elems ≠ [] ∧
      ∀ j ∈ elems, isOptionShape j = true) ∧
    (optionsHandler hh loads secret pkg now req).1 =
      (optionsHandler hh' loads' secret' pkg now' req').1 := by
  have h1 : optionsHandler hh loads secret pkg now req =
      (.resp ⟨200, optionsStaticList,
        [("content_type", "application/json"),
         ("X-Slack-Powered-By", pkg)]⟩, [⟨ty, .jsonValue payload⟩]) := by
    simp only [optionsHandler, hbc, hps, hload, hty]
  have h2 : optionsHandler hh' loads' secret' pkg now' req' =
      (.resp ⟨200, optionsStaticList,
        [("content_type", "application/json"),
         ("X-Slack-Powered-By", pkg)]⟩, [⟨ty', .jsonValue payload'⟩]) := by
    simp only [optionsHandler, hbc', hps', hload', hty']
  refine ⟨h1, ⟨_, rfl, by simp, ?_⟩, by rw [h1, h2]⟩
  intro j hj
  rcases List.mem_cons.mp hj with rfl | hj
  · rfl
  · rcases List.mem_singleton.mp hj with rfl
    rfl

/-- Witness for C8 at two different payloads: both valid signed POSTs get
the identical fixed-list 200 response. -/
theorem c8_options_fixed_response_witness :
    optionsHandler (fun _ _ => "h")
        (fun _ => .ok (Json.obj [("type", Json.str "block_actions")]))
        "sec" "pkg" 100
        ⟨"POST", [("X-Slack-Request-Timestamp", "100"),
                  ("X-Slack-Signature", "v0=h")], "",
          [("payload", "p1")]⟩ =
      (.resp ⟨200, optionsStaticList,
        [("content_type", "application/json"),
         ("X-Slack-Powered-By", "pkg")]⟩,
        [⟨Json.str "block_actions",
          .jsonValue (Json.obj [("type", Json.str "block_actions")])⟩]) ∧
    (∃ elems, optionsStaticList = Json.arr elems ∧ elems ≠ [] ∧
      ∀ j ∈ elems, isOptionShape j = true) ∧
    (optionsHandler (fun _ _ => "h")
        (fun _ => .ok (Json.obj [("type", Json.str "block_actions")]))
        "sec" "pkg" 100
        ⟨"POST", [("X-Slack-Request-Timestamp", "100"),
                  ("X-Slack-Signature", "v0=h")], "",
          [("payload", "p1")]⟩).1 =
      (optionsHandler (fun _ _ => "hh")
        (fun _ => .ok (Json.obj [("type", Json.str "view_submission"),
          ("view", Json.str "v")]))
        "sec2" "pkg" 200
        ⟨"POST", [("X-Slack-Request-Timestamp", "200"),
                  ("X-Slack-Signature", "v0=hh")], "",
          [("payload", "p2")]⟩).1 :=
  c8_options_fixed_response (fun _ _ => "h") (fun _ _ => "hh")
    (fun _ => .ok (Json.obj [("type", Json.str "block_actions")]))
    (fun _ => .ok (Json.obj [("type", Json.str "view_submission"),
      ("view", Json.str "v")]))
    "sec" "sec2" "pkg" 100 200
    ⟨"POST", [("X-Slack-Request-Timestamp", "100"),
              ("X-Slack-Signature", "v0=h")], "", [("payload", "p1")]⟩
    ⟨"POST", [("X-Slack-Request-Timestamp", "200"),
              ("X-Slack-Signature", "v0=hh")], "", [("payload", "p2")]⟩
    "p1" "p2"
    (Json.obj [("type", Json.str "block_actions")])
    (Json.obj [("type", Json.str "view_submission"), ("view", Json.str "v")])
    (Json.str "block_actions") (Json.str "view_submission")
    rfl rfl rfl rfl rfl rfl rfl rfl

/-- C9: when the checks pass but the discriminator key is absent — an
events body whose `event` object has no `type` key, or an
interactive/options `payload` object with no `type` key — the handler
raises an uncaught `KeyError`: nothing is emitted and no response (in
particular no 200) is produced. -/
theorem c9_missing_discriminator_keyerror (hh : String → String → String)
    (loads : String → Except PyExn Json) (secret pkg : String) (now : Int)
    (req : Request)
    (hbc : base_checks hh secret now req = .passed) :
    (∀ event_data ev_fields, loads req.rawBody = .ok event_data →
      event_data.get? "challenge" = none →
      event_data.get? "event" = some (.obj ev_fields) →
      lookupField ev_fields "type" = none →
      eventHandler hh loads secret pkg now req =
        (.exn (.keyError "type"), [])) ∧
    (∀ ps p_fields, getForm req "payload" = some ps →
      loads ps = .ok (.obj p_fields) →
      lookupField p_fields "type" = none →
      interactiveHandler hh loads secret pkg now req =
        (.exn (.keyError "type"), [])) ∧
    (∀ ps p_fields, getForm req "payload" = some ps →
      loads ps = .ok (.obj p_fields) →
      lookupField p_fields "type" = none →
      optionsHandler hh loads secret pkg now req =
        (.exn (.keyError "type"), [])) := by
  refine ⟨?_, ?_, ?_⟩
  · intro event_data ev_fields hload hch hev hlk
    simp only [eventHandler, hbc, hload, hch, hev, pyGetItem, hlk]
  · intro ps p_fields hps hload hlk
    simp only [interactiveHandler, hbc, hps, hload, pyGetItem, hlk]
  · intro ps p_fields hps hload hlk
    simp only [optionsHandler, hbc, hps, hload, pyGetItem, hlk]

/-- Witness for C9: concrete valid signed POSTs whose `event` object,
respectively `payload` object, lacks `type` make each handler raise
`KeyError("type")` with no emission. -/
theorem c9_missing_discriminator_keyerror_witness :
    (eventHandler (fun _ _ => "h")
        (fun _ => .ok (Json.obj [("event", Json.obj [("text", Json.str "hi")])]))
        "sec" "pkg" 100
        ⟨"POST", [("X-Slack-Request-Timestamp", "100"),
                  ("X-Slack-Signature", "v0=h")], "b", []⟩ =
      (.exn (.keyError "type"), [])) ∧
    (interactiveHandler (fun _ _ => "h")
        (fun _ => .ok (Json.obj [("actions", Json.arr [])]))
        "sec" "pkg" 100
        ⟨"POST", [("X-Slack-Request-Timestamp", "100"),
                  ("X-Slack-Signature", "v0=h")], "",
          [("payload", "p")]⟩ =
      (.exn (.keyError "type"), [])) ∧
    (optionsHandler (fun _ _ => "h")
        (fun _ => .ok (Json.obj [("actions", Json.arr [])]))
        "sec" "pkg" 100
        ⟨"POST", [("X-Slack-Request-Timestamp", "100"),
                  ("X-Slack-Signature", "v0=h")], "",
          [("payload", "p")]⟩ =
      (.exn (.keyError "type"), [])) := by
  refine ⟨?_, ?_, ?_⟩
  · exact (c9_missing_discriminator_keyerror (fun _ _ => "h")
      (fun _ => .ok (Json.obj [("event", Json.obj [("text", Json.str "hi")])]))
      "sec" "pkg" 100
      ⟨"POST", [("X-Slack-Request-Timestamp", "100"),
                ("X-Slack-Signature", "v0=h")], "b", []⟩ rfl).1
      (Json.obj [("event", Json.obj [("text", Json.str "hi")])])
      [("text", Json.str "hi")] rfl rfl rfl rfl
  · exact (c9_missing_discriminator_keyerror (fun _ _ => "h")
      (fun _ => .ok (Json.obj [("actions", Json.arr [])]))
      "sec" "pkg" 100
      ⟨"POST", [("X-Slack-Request-Timestamp", "100"),
                ("X-Slack-Signature", "v0=h")], "",
        [("payload", "p")]⟩ rfl).2.1
      "p" [("actions", Json.arr [])] rfl rfl rfl
  · exact (c9_missing_discriminator_keyerror (fun _ _ => "h")
      (fun _ => .ok (Json.obj [("actions", Json.arr [])]))
      "sec" "pkg" 100
      ⟨"POST", [("X-Slack-Request-Timestamp", "100"),
                ("X-Slack-Signature", "v0=h")], "",
        [("payload", "p")]⟩ rfl).2.2
      "p" [("actions", Json.arr [])] rfl rfl rfl

/-- Counterexample to C10: `0` (a non-`None`, non-Flask, *falsy* Python
value) does not raise `TypeError` — `if server:` is a truthiness test,
so the constructor silently creates a new Flask app instead. -/
theorem c10_counterexample :
    ServerArg.otherValue false ≠ ServerArg.pyNone ∧
    isFlaskArg (ServerArg.otherValue false) = false ∧
    slackServerInit (ServerArg.otherValue false) = .ok .newlyCreated :=
  ⟨by decide, rfl, rfl⟩

/-- C10 amended: a *truthy* non-Flask `server` argument raises
`TypeError` (binding no route); a Flask instance gets the routes bound
onto itself with no new app; any falsy argument (`None`, `0`, `""`, …)
makes the adapter create a new Flask app and bind the routes onto it. -/
theorem c10_server_argument_binding (server : ServerArg) :
    (pyTruthy server = true → isFlaskArg server = false →
      slackServerInit server = .error .typeError) ∧
    (∀ i, server = .flaskApp i →
      slackServerInit server = .ok (.existing i)) ∧
    (pyTruthy server = false →
      slackServerInit server = .ok .newlyCreated) := by
  refine ⟨?_, ?_, ?_⟩
  · intro ht hf
    cases server with
    | pyNone => exact absurd ht (by decide)
    | flaskApp i => exact Bool.noConfusion hf
    | otherValue b =>
      cases b with
      | false => exact Bool.noConfusion ht
      | true => rfl
  · intro i hi
    subst hi
    rfl
  · intro hf
    cases server with
    | pyNone => rfl
    | flaskApp i => exact Bool.noConfusion hf
    | otherValue b =>
      cases b with
      | false => rfl
      | true => exact Bool.noConfusion hf

/-- Witness for the amended C10: a truthy non-Flask value raises
`TypeError`, a Flask instance is bound onto, `None` yields a new app. -/
theorem c10_server_argument_binding_witness :
    slackServerInit (.otherValue true) = .error .typeError ∧
    slackServerInit (.flaskApp 7) = .ok (.existing 7) ∧
    slackServerInit .pyNone = .ok .newlyCreated :=
  ⟨(c10_server_argument_binding (.otherValue true)).1 rfl rfl,
   (c10_server_argument_binding (.flaskApp 7)).2.1 7 rfl,
   (c10_server_argument_binding .pyNone).2.2 rfl⟩
